import Mathlib

/-!
# Verification of the ML Worker Pool supervisor (`server/ml-services/worker_pool.py`)

A shallow embedding of the worker-pool subsystem: the JSON data model, the
worker child process (`Worker._run`, `Worker._process_task`), the pool
(`WorkerPool.submit_task`, `get_result`, `get_metrics`, `health_check`,
`shutdown`) and the supervisor control loop (`main`).  Model-specific
inference code (STT/TTS/VLLM/clone services) is treated as a black-box
handler interface, as the specification prescribes; everything else is
translated from the Python source.

Conventions:
* Python `dict`s coming from JSON are association lists `List (String × JVal)`;
  `dict.get(k, d)` is `dictGet`, `dict.get(k)` is `dictLookup`.
* A raised Python exception is the `.error` case of `Except String _`,
  carrying `str(e)`.
* `multiprocessing.Queue` objects are lists (FIFO: enqueue at the tail,
  dequeue at the head).  A blocking `put` on a queue that is at `maxsize`
  is the `SubmitOutcome.blocked` case: the call does not return while the
  queue stays full, and no exception reaches the caller.
* Wall-clock instants (`time.time()`) are rationals supplied as explicit
  parameters.
-/

/-- JSON values, the payloads moved across the supervisor's stdin/stdout
protocol and the multiprocessing queues. -/
inductive JVal where
  | null : JVal
  | bool (b : Bool) : JVal
  | num (q : ℚ) : JVal
  | str (s : String) : JVal
  | arr (elems : List JVal) : JVal
  | obj (fields : List (String × JVal)) : JVal
deriving Repr

/-- Python truthiness (`if not x`) of a JSON value. -/
def JVal.falsy : JVal → Bool
  | .null => true
  | .bool b => !b
  | .num q => q = 0
  | .str s => s = ""
  | .arr elems => elems.isEmpty
  | .obj fields => fields.isEmpty

/-- Python `d.get(k)` on a dict: `None` when the key is absent. -/
def dictLookup (d : List (String × JVal)) (k : String) : Option JVal :=
  d.lookup k

/-- Python `d.get(k, dflt)` on a dict. -/
def dictGet (d : List (String × JVal)) (k : String) (dflt : JVal) : JVal :=
  (d.lookup k).getD dflt

/-- The `WorkerType` enumeration (worker_pool.py lines 38–43): the closed enumeration of
worker kinds. -/
inductive WorkerType where
  | stt | tts | vllm | hf_tts | clone
deriving Repr, DecidableEq

/-- The string value of the Python enum member (`WorkerType.value`). -/
def WorkerType.value : WorkerType → String
  | .stt => "stt"
  | .tts => "tts"
  | .vllm => "vllm"
  | .hf_tts => "hf_tts"
  | .clone => "clone"

/-- The `Task` record (lines 46–53): the record submitted through the inbound queue.
`task_id`, `data` and `priority` come straight out of parsed JSON, so they
keep the `JVal` type. -/
structure TaskData where
  task_id : JVal
  worker_type : WorkerType
  data : List (String × JVal)
  priority : JVal
  submitted_at : ℚ
deriving Repr

/-- One result record pushed by a worker onto the result queue
(lines 140–146 on success, 150–156 on error).  `status` is the literal
string stored under the `"status"` key; exactly one of `result` / `error`
is present, mirroring which key the worker's dict carries. -/
structure ResultMsg where
  task_id : JVal
  status : String
  result : Option JVal
  error : Option String
  worker_id : ℕ
  processing_time : ℚ
deriving Repr

/-- The JSON fields of a worker result dict, in the order the worker builds
them; `result` / `error` appear only when present. -/
def ResultMsg.toFields (r : ResultMsg) : List (String × JVal) :=
  [("task_id", r.task_id), ("status", .str r.status)]
    ++ (match r.result with
        | some v => [("result", v)]
        | none => [])
    ++ (match r.error with
        | some e => [("error", .str e)]
        | none => [])
    ++ [("worker_id", .num r.worker_id), ("processing_time", .num r.processing_time)]

/-- Byte strings moved in and out of the black-box services. -/
abbrev Bytes := List ℕ

/-- Rendering of `str(v)` as produced by Python f-string interpolation of a JSON value.
Scalars are rendered exactly; the container renderings are abbreviated
(no claim depends on them). -/
def JVal.pyStr : JVal → String
  | .null => "None"
  | .bool b => if b then "True" else "False"
  | .num q => if q.den = 1 then toString q.num else toString q.num ++ "/" ++ toString q.den
  | .str s => s
  | .arr _ => "[...]"
  | .obj _ => "\x7b...\x7d"

/-- Message `str(e)` of a Python `KeyError` raised by `d[k]`: the repr of the key. -/
def keyErrorMsg (k : String) : String := "\x27" ++ k ++ "\x27"

/-- Black-box interface to the per-kind ML services.  The specification (§1)
treats all model inference as opaque Task Handlers, so each service call made
by `Worker._process_task` is a field here; `.error e` models the call raising
an exception with `str(e) = e`.  For the clone-creation calls the Python code
immediately serializes the returned dataclass into a JSON dict (lines
218–276); that serialized dict is what the field returns. -/
structure Services where
  b64decode : JVal → Except String Bytes
  b64encode : Bytes → String
  transcribe : Bytes → JVal → Except String JVal
  synthesize : JVal → JVal → Option JVal → JVal → Except String Bytes
  hfSynthesize : JVal → JVal → JVal → Except String Bytes
  generate_response : List (String × JVal) → Except String JVal
  create_instant_clone : JVal → Bytes → JVal → Except String JVal
  create_professional_clone : JVal → Bytes → JVal → Except String JVal
  create_synthetic_clone : JVal → JVal → JVal → Except String JVal
  get_clone_status : JVal → Except String (Option JVal)

namespace Worker

/-- Embedding of `Worker._process_task` (lines 163–297): dispatch on the worker's own
kind, read the payload fields with `dict.get` defaults, call the service,
and shape the result object.  A `.error` is a raised exception propagating
to the caller in `_run`. -/
def process_task (svc : Services) (worker_type : WorkerType)
    (data : List (String × JVal)) : Except String JVal :=
  match worker_type with
  | .stt =>
      let audio_b64 := dictGet data "audio" (.str "")
      let language := dictGet data "language" (.str "en")
      if audio_b64.falsy then
        .ok (.obj [("error", .str "No audio provided")])
      else do
        let audio_bytes ← svc.b64decode audio_b64
        svc.transcribe audio_bytes language
  | .tts => do
      let audio_bytes ← svc.synthesize (dictGet data "text" (.str ""))
        (dictGet data "model" (.str "chatterbox"))
        (dictLookup data "voice")
        (dictGet data "speed" (.num 1))
      .ok (.obj [("audio", .str (svc.b64encode audio_bytes))])
  | .hf_tts => do
      let audio_bytes ← svc.hfSynthesize (dictGet data "text" (.str ""))
        (dictGet data "model" (.str "parler_tts_multilingual"))
        (dictGet data "voice_prompt" (.str "A clear and natural voice"))
      .ok (.obj [("audio", .str (svc.b64encode audio_bytes)),
                 ("format", .str "wav"), ("sample_rate", .num 44100)])
  | .vllm => svc.generate_response data
  | .clone =>
      match dictLookup data "action" with
      | some (.str "create_instant") =>
          (match dictLookup data "clone_id", dictLookup data "audio" with
           | none, _ => .error (keyErrorMsg "clone_id")
           | some _, none => .error (keyErrorMsg "audio")
           | some clone_id, some audio_b64 => do
               let audio_bytes ← svc.b64decode audio_b64
               svc.create_instant_clone clone_id audio_bytes (dictGet data "name" (.str "Untitled")))
      | some (.str "create_professional") =>
          (match dictLookup data "clone_id", dictLookup data "audio" with
           | none, _ => .error (keyErrorMsg "clone_id")
           | some _, none => .error (keyErrorMsg "audio")
           | some clone_id, some audio_b64 => do
               let audio_bytes ← svc.b64decode audio_b64
               svc.create_professional_clone clone_id audio_bytes (dictGet data "name" (.str "Untitled")))
      | some (.str "create_synthetic") =>
          (match dictLookup data "clone_id" with
           | none => .error (keyErrorMsg "clone_id")
           | some clone_id =>
               svc.create_synthetic_clone clone_id (dictGet data "description" (.str ""))
                 (dictGet data "characteristics" (.obj [])))
      | some (.str "get_status") =>
          (match dictLookup data "clone_id" with
           | none => .error (keyErrorMsg "clone_id")
           | some clone_id => do
               let result ← svc.get_clone_status clone_id
               match result with
               | some status => .ok status
               | none => .error ("Clone not found: " ++ clone_id.pyStr))
      | other =>
          .error ("Unknown voice cloning action: " ++ (other.getD JVal.null).pyStr)

/-- Outcome of one pass of the task loop in `Worker._run` (lines 123–161). -/
inductive LoopStep where
  | exited
  | continued (task_queue : List TaskData) (result_queue : List ResultMsg)
deriving Repr

/-- One pass of the task loop in `Worker._run` (lines 123–161): if the
shutdown event is set, the `while` condition fails and `_run` returns
(`.exited`); otherwise the worker polls the inbound queue (a `queue.Empty`
timeout just loops), runs `_process_task`, and pushes exactly one result
dict — `success` with the return value, or `error` with `str(e)` when the
handler raised — then loops (`.continued`).  `start_time` and `now` are the
two `time.time()` readings around the handler call. -/
def runStep (svc : Services) (worker_id : ℕ) (worker_type : WorkerType)
    (shutdown_event : Bool) (task_queue : List TaskData) (result_queue : List ResultMsg)
    (start_time now : ℚ) : LoopStep :=
  if shutdown_event then .exited
  else
    match task_queue with
    | [] => .continued [] result_queue
    | task :: rest =>
        match process_task svc worker_type task.data with
        | .ok result =>
            .continued rest (result_queue ++
              [⟨task.task_id, "success", some result, none, worker_id, now - start_time⟩])
        | .error e =>
            .continued rest (result_queue ++
              [⟨task.task_id, "error", none, some e, worker_id, now - start_time⟩])

/-- Outcome of the initialization phase of `Worker._run` (lines 92–120). -/
inductive InitPhase where
  | proceed
  | earlyReturn (diagnostic : String)
deriving Repr

/-- The initialization phase of `Worker._run` (lines 92–120): the handler
factory (service constructor import and call) either succeeds, after which
control falls through to the task loop, or raises, in which case the
exception is caught, a diagnostic line is printed to stderr, and `_run`
returns before the task loop is ever entered. -/
def runInit (worker_id : ℕ) (factory : Except String Unit) : InitPhase :=
  match factory with
  | .ok _ => .proceed
  | .error e =>
      .earlyReturn ("[Worker " ++ toString worker_id ++ "] Failed to initialize service: " ++ e)

/-- Exit code of the child process as determined by the initialization
phase: a plain `return` from the `Process` target (the `.earlyReturn` path)
ends the child with exit code 0; on `.proceed` the exit code is decided
later by the task loop. -/
def InitPhase.exitCode : InitPhase → Option ℕ
  | .earlyReturn _ => some 0
  | .proceed => none

/-- Number of tasks dequeued from the inbound queue during `_run` when
initialization fails: the task loop is never entered. -/
def InitPhase.tasksDequeued : InitPhase → Option ℕ
  | .earlyReturn _ => some 0
  | .proceed => none

end Worker

/-- Supervisor-side handle for one worker process: the `Worker` object
fields the pool reads — identity, kind, the shared channels it was
constructed with (lines 70–75), and process liveness as probed by
`Worker.is_alive` (lines 299–301).  Queue and event objects are shared by
reference across `Worker.__init__`, so they are modelled by numeric object
identities. -/
structure WorkerSlot where
  worker_id : ℕ
  worker_type : WorkerType
  task_queue_ref : ℕ
  result_queue_ref : ℕ
  shutdown_ref : ℕ
  alive : Bool
deriving Repr, DecidableEq

/-- The state of one `WorkerPool` (lines 320–336): the worker slots, the
contents of the two shared queues together with the identities of the queue
and event objects the pool owns, the shutdown event flag, the running flag
and the three counters. -/
structure PoolState where
  num_workers : ℕ
  worker_type : WorkerType
  workers : List WorkerSlot
  task_queue : List TaskData
  result_queue : List ResultMsg
  task_queue_ref : ℕ
  result_queue_ref : ℕ
  shutdown_ref : ℕ
  shutdown_event : Bool
  running : Bool
  tasks_submitted : ℕ
  tasks_completed : ℕ
  tasks_failed : ℕ
deriving Repr

namespace WorkerPool

/-- Capacity `Queue(maxsize=1000)` (line 324): the capacity bound of the inbound
task queue. -/
def taskQueueMaxsize : ℕ := 1000

/-- Embedding of `WorkerPool.__init__` (lines 320–336): no workers yet, fresh empty
queues and a cleared shutdown event (whose object identities are the three
`ref` arguments), `running = False`, all counters zero. -/
def mk (num_workers : ℕ) (worker_type : WorkerType) (tref rref sref : ℕ) : PoolState :=
  { num_workers, worker_type, workers := [], task_queue := [], result_queue := [],
    task_queue_ref := tref, result_queue_ref := rref, shutdown_ref := sref,
    shutdown_event := false, running := false,
    tasks_submitted := 0, tasks_completed := 0, tasks_failed := 0 }

/-- Embedding of `WorkerPool.start` (lines 338–354): spawn workers `0 .. num_workers-1`,
each constructed with the pool's own queues and shutdown event and started
(so alive), then set `running = True`. -/
def start (p : PoolState) : PoolState :=
  { p with
    workers := (List.range p.num_workers).map (fun i =>
      { worker_id := i, worker_type := p.worker_type,
        task_queue_ref := p.task_queue_ref, result_queue_ref := p.result_queue_ref,
        shutdown_ref := p.shutdown_ref, alive := true }),
    running := true }

/-- Outcome of `WorkerPool.submit_task`: either the `put` found a free slot
and the call returns the submission latency in milliseconds, or the queue
was at `maxsize` and the blocking `put` does not return while it stays
full (no exception reaches the caller). -/
inductive SubmitOutcome where
  | ok (p : PoolState) (submission_latency : ℚ)
  | blocked
deriving Repr

/-- Embedding of `WorkerPool.submit_task` (lines 356–376): build the task dict with
`submitted_at = start_time`, then `self.task_queue.put(task_data)` — a
*blocking* put on the bounded queue (no `block=False`, no timeout, no
`queue.Full` handler anywhere in the file) — then increment
`tasks_submitted` and return `(finish_time - start_time) * 1000`. -/
def submit_task (p : PoolState) (task_id : JVal) (data : List (String × JVal))
    (priority : JVal) (start_time finish_time : ℚ) : SubmitOutcome :=
  let task_data : TaskData :=
    { task_id, worker_type := p.worker_type, data, priority, submitted_at := start_time }
  if p.task_queue.length < taskQueueMaxsize then
    .ok { p with task_queue := p.task_queue ++ [task_data],
                 tasks_submitted := p.tasks_submitted + 1 }
       ((finish_time - start_time) * 1000)
  else .blocked

/-- Embedding of `WorkerPool.get_result` (lines 378–388): pop one result from the
outbound queue; on `queue.Empty` (nothing arrived within the timeout
window) return `None` and touch nothing; otherwise increment
`tasks_completed` when the popped dict's `status` is `"success"` and
`tasks_failed` otherwise, and return the result. -/
def get_result (p : PoolState) : Option ResultMsg × PoolState :=
  match p.result_queue with
  | [] => (none, p)
  | r :: rest =>
      if r.status = "success" then
        (some r, { p with result_queue := rest, tasks_completed := p.tasks_completed + 1 })
      else
        (some r, { p with result_queue := rest, tasks_failed := p.tasks_failed + 1 })

/-- The dict returned by `WorkerPool.get_metrics` (lines 390–403). -/
structure PoolMetrics where
  worker_type : String
  num_workers : ℕ
  alive_workers : ℕ
  tasks_submitted : ℕ
  tasks_completed : ℕ
  tasks_failed : ℕ
  queue_depth : ℕ
  worker_utilization : ℚ
deriving Repr, DecidableEq

/-- Embedding of `WorkerPool.get_metrics` (lines 390–403): `alive_workers` counts slots
whose process is alive; `worker_utilization` is
`(num_workers - alive_workers) / num_workers` when `num_workers > 0` and
`0` otherwise. -/
def get_metrics (p : PoolState) : PoolMetrics :=
  let alive_workers := (p.workers.filter (fun w => w.alive)).length
  { worker_type := p.worker_type.value, num_workers := p.num_workers,
    alive_workers := alive_workers,
    tasks_submitted := p.tasks_submitted, tasks_completed := p.tasks_completed,
    tasks_failed := p.tasks_failed, queue_depth := p.task_queue.length,
    worker_utilization :=
      if 0 < p.num_workers then
        ((p.num_workers : ℚ) - (alive_workers : ℚ)) / (p.num_workers : ℚ)
      else 0 }

/-- The JSON fields of the metrics dict, in construction order
(lines 394–403). -/
def PoolMetrics.toFields (m : PoolMetrics) : List (String × JVal) :=
  [("worker_type", .str m.worker_type), ("num_workers", .num m.num_workers),
   ("alive_workers", .num m.alive_workers), ("tasks_submitted", .num m.tasks_submitted),
   ("tasks_completed", .num m.tasks_completed), ("tasks_failed", .num m.tasks_failed),
   ("queue_depth", .num m.queue_depth), ("worker_utilization", .num m.worker_utilization)]

/-- Embedding of `WorkerPool.health_check` (lines 405–419): for each slot `i` in order,
if the worker process is not alive, terminate it (best-effort) and install
a freshly constructed and started worker with `worker_id = i`, the pool's
kind, and the pool's own queues and shutdown event; live slots are left
untouched.  Nothing else in the pool is read or written. -/
def health_check (p : PoolState) : PoolState :=
  { p with workers := p.workers.mapIdx (fun i w =>
      if w.alive then w
      else { worker_id := i, worker_type := p.worker_type,
             task_queue_ref := p.task_queue_ref, result_queue_ref := p.result_queue_ref,
             shutdown_ref := p.shutdown_ref, alive := true }) }

/-- Embedding of `WorkerPool.shutdown` (lines 421–434): `if not self.running: return` —
a second call on a shut-down (or never-started) pool changes nothing;
otherwise clear `running`, set the shutdown event, and terminate every
worker (`Worker.terminate`, lines 303–309, leaves the process not alive). -/
def shutdown (p : PoolState) : PoolState :=
  if p.running then
    { p with running := false, shutdown_event := true,
             workers := p.workers.map (fun w => { w with alive := false }) }
  else p

end WorkerPool

namespace Supervisor

/-- Python type name of a JSON value after `json.loads`. -/
def pyTypeName : JVal → String
  | .null => "NoneType"
  | .bool _ => "bool"
  | .num q => if q.den = 1 then "int" else "float"
  | .str _ => "str"
  | .arr _ => "list"
  | .obj _ => "dict"

/-- Message `str(e)` of the `AttributeError` raised by `request.get("type")` when
`json.loads` produced a non-dict value. -/
def attrGetMsg (v : JVal) : String :=
  "\x27" ++ pyTypeName v ++ "\x27 object has no attribute \x27get\x27"

/-- One line read from the supervisor's stdin, after `json.loads`:
either a decode failure carrying `str(e)`, or the parsed value. -/
inductive InputLine where
  | jsonError (msg : String)
  | parsed (v : JVal)
deriving Repr

/-- The error response object (lines 536–539 and 541–544). -/
def errorResp (msg : String) : JVal :=
  .obj [("type", .str "error"), ("error", .str msg)]

/-- Outcome of handling one input line in `main`: the JSON objects printed
to stdout for this request, the pool afterwards, and whether the loop
`break`s (the `shutdown` branch).  `blocked` is the `submit_task` branch
calling `pool.submit_task` on a full inbound queue: the blocking `put`
does not return while the queue stays full and nothing has been printed. -/
inductive LineOutcome where
  | done (responses : List JVal) (pool : PoolState) (brk : Bool)
  | blocked
deriving Repr

/-- The request-handling `try/except` body of `main` (lines 472–545): parse
failures and raised exceptions each print exactly one `error` object; the
five recognized `type` values each run their pool operation and print
exactly one response; a dict request whose `type` matches none of the
`if/elif` arms falls through the chain and prints nothing.
`start_time`/`finish_time` are the `time.time()` readings inside
`submit_task`.  Non-object `data` payloads are passed through verbatim by
Python and only ever read inside the worker; the model restricts task
payloads to JSON objects. -/
def handleLine (p : PoolState) (line : InputLine) (start_time finish_time : ℚ) :
    LineOutcome :=
  match line with
  | .jsonError e => .done [errorResp ("Invalid JSON: " ++ e)] p false
  | .parsed v =>
    match v with
    | .obj fields =>
      match dictLookup fields "type" with
      | some (.str "submit_task") =>
          let task_id := (dictLookup fields "task_id").getD .null
          let data := match dictGet fields "data" (.obj []) with
                      | .obj d => d
                      | _ => []
          let priority := dictGet fields "priority" (.num 0)
          match WorkerPool.submit_task p task_id data priority start_time finish_time with
          | .ok p' latency =>
              .done [.obj [("type", .str "task_submitted"), ("task_id", task_id),
                           ("submission_latency", .num latency)]] p' false
          | .blocked => .blocked
      | some (.str "get_result") =>
          match WorkerPool.get_result p with
          | (some r, p') =>
              .done [.obj (("type", .str "task_result") :: r.toFields)] p' false
          | (none, p') =>
              .done [.obj [("type", .str "no_result"),
                           ("message", .str "No result available")]] p' false
      | some (.str "get_metrics") =>
          .done [.obj (("type", .str "metrics") :: (WorkerPool.get_metrics p).toFields)]
            p false
      | some (.str "health_check") =>
          .done [.obj [("type", .str "health_check_complete")]]
            (WorkerPool.health_check p) false
      | some (.str "shutdown") =>
          .done [.obj [("type", .str "shutdown_complete")]] (WorkerPool.shutdown p) true
      | _ => .done [] p false
    | nonDict => .done [errorResp (attrGetMsg nonDict)] p false

/-- One full iteration of the supervisor loop (lines 470–548): handle one
input line, then — unless the `shutdown` branch executed `break` — run the
periodic `pool.health_check()` before reading the next line. -/
def loopIter (p : PoolState) (line : InputLine) (start_time finish_time : ℚ) :
    LineOutcome :=
  match handleLine p line start_time finish_time with
  | .done rs p' brk =>
      if brk then .done rs p' true else .done rs (WorkerPool.health_check p') false
  | .blocked => .blocked

/-- The startup `ready` message (lines 462–466), printed exactly once
before the loop. -/
def readyMsg (worker_type : WorkerType) (num_workers : ℕ) : JVal :=
  .obj [("type", .str "ready"), ("worker_type", .str worker_type.value),
        ("num_workers", .num num_workers)]

end Supervisor

/-! ## Transition system

One observable transition of a pool: a supervisor-side operation
(`submit_task` that found room in the queue, `get_result`, `health_check`,
`shutdown`), one pass of some worker's task loop, or an environment event
(a worker process dying, possibly losing the task it had already dequeued
— spec §7.3). -/

/-- The worker list after the process of slot `i` dies: only that slot's
liveness changes. -/
def killSlot (ws : List WorkerSlot) (i : ℕ) (hi : i < ws.length) : List WorkerSlot :=
  ws.set i { ws.get ⟨i, hi⟩ with alive := false }

/-- Small-step relation on pool states. -/
inductive PoolStep : PoolState → PoolState → Prop where
  | submit (p p' : PoolState) (task_id : JVal) (data : List (String × JVal))
      (priority : JVal) (t0 t1 lat : ℚ)
      (h : WorkerPool.submit_task p task_id data priority t0 t1 = .ok p' lat) :
      PoolStep p p'
  | workerStep (p : PoolState) (svc : Services) (wid : ℕ)
      (tq : List TaskData) (rq : List ResultMsg) (t0 t1 : ℚ)
      (h : Worker.runStep svc wid p.worker_type p.shutdown_event
             p.task_queue p.result_queue t0 t1 = .continued tq rq) :
      PoolStep p { p with task_queue := tq, result_queue := rq }
  | taskLost (p : PoolState) :
      PoolStep p { p with task_queue := p.task_queue.tail }
  | processDeath (p : PoolState) (i : ℕ) (hi : i < p.workers.length) :
      PoolStep p { p with workers := killSlot p.workers i hi }
  | getResult (p : PoolState) :
      PoolStep p (WorkerPool.get_result p).2
  | healthCheck (p : PoolState) :
      PoolStep p (WorkerPool.health_check p)
  | shutdown (p : PoolState) :
      PoolStep p (WorkerPool.shutdown p)

/-- Pool states reachable from a freshly constructed and started pool by
any interleaving of the modelled operations and environment events. -/
def PoolReachable (p : PoolState) : Prop :=
  ∃ n wt tref rref sref,
    Relation.ReflTransGen PoolStep (WorkerPool.start (WorkerPool.mk n wt tref rref sref)) p

/-- A `.continued` pass of the worker loop conserves the combined size of
the two queues: it either pops nothing and pushes nothing, or pops one task
and pushes exactly one result. -/
theorem Worker.runStep_continued_lengths {svc : Services} {wid : ℕ}
    {wt : WorkerType} {sd : Bool} {tq tq' : List TaskData}
    {rq rq' : List ResultMsg} {t0 t1 : ℚ}
    (h : Worker.runStep svc wid wt sd tq rq t0 t1 = .continued tq' rq') :
    tq'.length + rq'.length = tq.length + rq.length := by
  cases sd with
  | true => simp [Worker.runStep] at h
  | false =>
    cases tq with
    | nil =>
        simp only [Worker.runStep, Bool.false_eq_true, if_false,
          Worker.LoopStep.continued.injEq] at h
        obtain ⟨h1, h2⟩ := h
        subst h1; subst h2; rfl
    | cons task rest =>
        cases hpt : Worker.process_task svc wt task.data with
        | ok r =>
            simp only [Worker.runStep, Bool.false_eq_true, if_false, hpt,
              Worker.LoopStep.continued.injEq] at h
            obtain ⟨h1, h2⟩ := h
            subst h1; subst h2
            simp [List.length_append]
            omega
        | error e =>
            simp only [Worker.runStep, Bool.false_eq_true, if_false, hpt,
              Worker.LoopStep.continued.injEq] at h
            obtain ⟨h1, h2⟩ := h
            subst h1; subst h2
            simp [List.length_append]
            omega

/-- Strengthened counter invariant: counted results plus pending results
plus queued tasks never exceed submissions. -/
def CounterInv (p : PoolState) : Prop :=
  p.tasks_completed + p.tasks_failed + p.result_queue.length + p.task_queue.length ≤
    p.tasks_submitted

theorem counterInv_step {p p' : PoolState} (hs : PoolStep p p')
    (h : CounterInv p) : CounterInv p' := by
  cases hs with
  | submit p' task_id data priority t0 t1 lat hsub =>
      unfold WorkerPool.submit_task at hsub
      split at hsub
      · injection hsub with h1 h2
        subst h1
        simp only [CounterInv, List.length_append, List.length_cons,
          List.length_nil] at h ⊢
        omega
      · cases hsub
  | workerStep svc wid tq rq t0 t1 hws =>
      have hl := Worker.runStep_continued_lengths hws
      simp only [CounterInv] at h ⊢
      omega
  | taskLost =>
      simp only [CounterInv, List.length_tail] at h ⊢
      omega
  | processDeath i hi => exact h
  | getResult =>
      rcases hrq : p.result_queue with _ | ⟨r, rest⟩
      · simp only [WorkerPool.get_result, hrq]
        exact h
      · simp only [WorkerPool.get_result, hrq]
        split
        · simp only [CounterInv, hrq, List.length_cons] at h ⊢
          omega
        · simp only [CounterInv, hrq, List.length_cons] at h ⊢
          omega
  | healthCheck => exact h
  | shutdown =>
      unfold WorkerPool.shutdown
      split
      · exact h
      · exact h

theorem counterInv_of_reachable {p : PoolState} (h : PoolReachable p) :
    CounterInv p := by
  obtain ⟨n, wt, a, b, c, hsteps⟩ := h
  induction hsteps with
  | refl => simp [CounterInv, WorkerPool.start, WorkerPool.mk]
  | tail _ hstep ih => exact counterInv_step hstep ih

/-- Slot well-formedness: the pool has exactly `num_workers` slots, and the
worker handle in slot `i` carries `worker_id = i`, the pool's kind, and the
pool's own shared queue and event objects.  `WorkerPool.start` establishes
this and every modelled transition preserves it. -/
def WfSlots (p : PoolState) : Prop :=
  p.workers.length = p.num_workers ∧
  ∀ (i : ℕ) (w : WorkerSlot), p.workers[i]? = some w →
    w.worker_id = i ∧ w.worker_type = p.worker_type ∧
    w.task_queue_ref = p.task_queue_ref ∧
    w.result_queue_ref = p.result_queue_ref ∧
    w.shutdown_ref = p.shutdown_ref

theorem wfSlots_start (n : ℕ) (wt : WorkerType) (a b c : ℕ) :
    WfSlots (WorkerPool.start (WorkerPool.mk n wt a b c)) := by
  constructor
  · simp [WorkerPool.start, WorkerPool.mk]
  · intro i w hw
    simp only [WorkerPool.start, WorkerPool.mk, List.getElem?_map] at hw
    by_cases hi : i < n
    · rw [List.getElem?_range hi] at hw
      simp only [Option.map_some'] at hw
      injection hw with hww
      subst hww
      exact ⟨rfl, rfl, rfl, rfl, rfl⟩
    · rw [List.getElem?_eq_none (by simpa [List.length_range] using hi)] at hw
      cases hw

theorem wfSlots_step {p p' : PoolState} (hs : PoolStep p p')
    (h : WfSlots p) : WfSlots p' := by
  obtain ⟨hlen, hslot⟩ := h
  cases hs with
  | submit p' task_id data priority t0 t1 lat hsub =>
      unfold WorkerPool.submit_task at hsub
      split at hsub
      · injection hsub with h1 h2
        subst h1
        exact ⟨hlen, hslot⟩
      · cases hsub
  | workerStep svc wid tq rq t0 t1 hws => exact ⟨hlen, hslot⟩
  | taskLost => exact ⟨hlen, hslot⟩
  | processDeath i hi =>
      refine ⟨by simpa [killSlot] using hlen, ?_⟩
      intro j w hw
      have hwi : p.workers[i]? = some (p.workers.get ⟨i, hi⟩) := by
        simp [List.getElem?_eq_getElem hi, List.get_eq_getElem]
      unfold killSlot at hw
      rw [List.getElem?_set] at hw
      by_cases hij : i = j
      · subst hij
        rw [if_pos rfl, if_pos hi] at hw
        injection hw with hww
        subst hww
        obtain ⟨h1, h2, h3, h4, h5⟩ := hslot i _ hwi
        exact ⟨h1, h2, h3, h4, h5⟩
      · rw [if_neg hij] at hw
        exact hslot j w hw
  | getResult =>
      rcases hrq : p.result_queue with _ | ⟨r, rest⟩
      · simp only [WorkerPool.get_result, hrq]
        exact ⟨hlen, hslot⟩
      · simp only [WorkerPool.get_result, hrq]
        split
        · exact ⟨hlen, hslot⟩
        · exact ⟨hlen, hslot⟩
  | healthCheck =>
      constructor
      · simpa [WorkerPool.health_check] using hlen
      · intro i w hw
        simp only [WorkerPool.health_check, List.getElem?_mapIdx] at hw
        rcases hpw : p.workers[i]? with _ | v
        · rw [hpw] at hw; cases hw
        · rw [hpw] at hw
          simp only [Option.map_some'] at hw
          obtain ⟨h1, h2, h3, h4, h5⟩ := hslot i v hpw
          by_cases hv : v.alive
          · rw [if_pos hv] at hw
            injection hw with hww
            subst hww
            exact ⟨h1, h2, h3, h4, h5⟩
          · rw [if_neg hv] at hw
            injection hw with hww
            subst hww
            exact ⟨rfl, rfl, rfl, rfl, rfl⟩
  | shutdown =>
      unfold WorkerPool.shutdown
      split
      · constructor
        · simpa using hlen
        · intro i w hw
          simp only [List.getElem?_map] at hw
          rcases hpw : p.workers[i]? with _ | v
          · rw [hpw] at hw; cases hw
          · rw [hpw] at hw
            simp only [Option.map_some'] at hw
            injection hw with hww
            subst hww
            obtain ⟨h1, h2, h3, h4, h5⟩ := hslot i v hpw
            exact ⟨h1, h2, h3, h4, h5⟩
      · exact ⟨hlen, hslot⟩

theorem wfSlots_of_reachable {p : PoolState} (h : PoolReachable p) :
    WfSlots p := by
  obtain ⟨n, wt, a, b, c, hsteps⟩ := h
  induction hsteps with
  | refl => exact wfSlots_start n wt a b c
  | tail _ hstep ih => exact wfSlots_step hstep ih

/-! ## Sample states for concrete evaluations -/

/-- A freshly started two-worker STT pool. -/
def samplePool : PoolState := WorkerPool.start (WorkerPool.mk 2 .stt 0 1 2)

/-- The task record that `submit_task p (.str "t") [] (.num 0) 0 0` builds
on an STT pool. -/
def sampleTask : TaskData :=
  { task_id := .str "t", worker_type := .stt, data := [], priority := .num 0,
    submitted_at := 0 }

/-- State of `samplePool` after `n` successful submissions of `sampleTask`
(all with `time.time() = 0`). -/
def filledPool : ℕ → PoolState
  | 0 => samplePool
  | n + 1 =>
      { filledPool n with
        task_queue := (filledPool n).task_queue ++ [sampleTask],
        tasks_submitted := (filledPool n).tasks_submitted + 1 }

theorem filledPool_task_queue (n : ℕ) :
    (filledPool n).task_queue = List.replicate n sampleTask := by
  induction n with
  | zero => rfl
  | succ k ih => rw [List.replicate_succ', ← ih]; rfl

theorem filledPool_worker_type (n : ℕ) : (filledPool n).worker_type = .stt := by
  induction n with
  | zero => rfl
  | succ k ih => exact ih

theorem filledPool_reachable (n : ℕ) (hn : n ≤ WorkerPool.taskQueueMaxsize) :
    Relation.ReflTransGen PoolStep samplePool (filledPool n) := by
  induction n with
  | zero => exact Relation.ReflTransGen.refl
  | succ k ih =>
      refine Relation.ReflTransGen.tail (ih (Nat.le_of_succ_le hn)) ?_
      refine PoolStep.submit (filledPool k) (filledPool (k + 1)) (.str "t") [] (.num 0)
        0 0 ((0 - 0) * 1000) ?_
      have hcond : (filledPool k).task_queue.length < WorkerPool.taskQueueMaxsize := by
        rw [filledPool_task_queue, List.length_replicate]
        exact Nat.lt_of_succ_le hn
      unfold WorkerPool.submit_task
      rw [if_pos hcond]
      simp only [filledPool, filledPool_worker_type, sampleTask]

/-! ## Claim theorems -/

/-- C1 counterexample: `filledPool 1000` is a reachable pool whose
inbound queue holds capacity-many (1000) undequeued tasks, and
`submit_task` on it is the blocking `Queue.put` (`.blocked`): the call
does not return while the queue stays full, and no queue-full error is
reported synchronously to the caller — `submit_task` has no failure
outcome at all, refuting the claimed `QueueFull` error. -/
theorem submit_on_full_queue_blocks_counterexample :
    PoolReachable (filledPool 1000) ∧
    WorkerPool.submit_task (filledPool 1000) (.str "t") [] (.num 0) 0 0 =
      WorkerPool.SubmitOutcome.blocked := by
  constructor
  · exact ⟨2, .stt, 0, 1, 2, filledPool_reachable 1000 Nat.le.refl⟩
  · have hfull : ¬ (filledPool 1000).task_queue.length < WorkerPool.taskQueueMaxsize := by
      rw [filledPool_task_queue, List.length_replicate]
      simp [WorkerPool.taskQueueMaxsize]
    unfold WorkerPool.submit_task
    rw [if_neg hfull]

/-- C1 (amended): a `submit_task` call while the inbound queue is below
capacity (1000) appends the task and increments `tasks_submitted` by one,
returning the submission latency; a call while the queue holds
capacity-many undequeued tasks performs a *blocking* put — it does not
return while the queue stays full, and no queue-full error is reported to
the caller. -/
theorem submit_task_enqueues_or_blocks (p : PoolState) (task_id : JVal)
    (data : List (String × JVal)) (priority : JVal) (t0 t1 : ℚ) :
    (p.task_queue.length < WorkerPool.taskQueueMaxsize →
      WorkerPool.submit_task p task_id data priority t0 t1 =
        .ok { p with
              task_queue := p.task_queue ++
                [{ task_id := task_id, worker_type := p.worker_type, data := data,
                   priority := priority, submitted_at := t0 }],
              tasks_submitted := p.tasks_submitted + 1 }
          ((t1 - t0) * 1000)) ∧
    (WorkerPool.taskQueueMaxsize ≤ p.task_queue.length →
      WorkerPool.submit_task p task_id data priority t0 t1 =
        WorkerPool.SubmitOutcome.blocked) := by
  constructor
  · intro h
    unfold WorkerPool.submit_task
    rw [if_pos h]
  · intro h
    unfold WorkerPool.submit_task
    rw [if_neg (by omega)]

theorem submit_task_enqueues_or_blocks_witness :
    WorkerPool.submit_task samplePool (.str "t") [] (.num 0) 0 0 =
      .ok { samplePool with
            task_queue := samplePool.task_queue ++ [sampleTask],
            tasks_submitted := samplePool.tasks_submitted + 1 } ((0 - 0) * 1000) ∧
    WorkerPool.submit_task (filledPool 1000) (.str "u") [] (.num 0) 0 0 =
      WorkerPool.SubmitOutcome.blocked := by
  constructor
  · exact (submit_task_enqueues_or_blocks samplePool (.str "t") [] (.num 0) 0 0).1
      (by simp [samplePool, WorkerPool.start, WorkerPool.mk, WorkerPool.taskQueueMaxsize])
  · exact (submit_task_enqueues_or_blocks (filledPool 1000) (.str "u") [] (.num 0) 0 0).2
      (by rw [filledPool_task_queue, List.length_replicate]; exact Nat.le.refl)

/-- C3: in every pool state reachable by any interleaving of submit,
worker processing, result retrieval, health checks, shutdown and worker
crashes, `tasks_completed + tasks_failed ≤ tasks_submitted`. -/
theorem tasks_counter_inequality (p : PoolState) (h : PoolReachable p) :
    p.tasks_completed + p.tasks_failed ≤ p.tasks_submitted := by
  have hinv := counterInv_of_reachable h
  unfold CounterInv at hinv
  omega

theorem tasks_counter_inequality_witness :
    (filledPool 3).tasks_completed + (filledPool 3).tasks_failed ≤
      (filledPool 3).tasks_submitted :=
  tasks_counter_inequality (filledPool 3)
    ⟨2, .stt, 0, 1, 2, filledPool_reachable 3 (by norm_num [WorkerPool.taskQueueMaxsize])⟩

/-- C7: on a running pool, the first `shutdown` call clears `running`,
sets the shutdown event and terminates every worker; applying `shutdown`
again changes nothing (the guard `if not self.running: return` makes the
operation idempotent). -/
theorem shutdown_sets_flags_and_is_idempotent (p : PoolState)
    (hr : p.running = true) :
    (WorkerPool.shutdown p).running = false ∧
    (WorkerPool.shutdown p).shutdown_event = true ∧
    (∀ (i : ℕ) (w : WorkerSlot), (WorkerPool.shutdown p).workers[i]? = some w →
      w.alive = false) ∧
    WorkerPool.shutdown (WorkerPool.shutdown p) = WorkerPool.shutdown p := by
  have hsd : WorkerPool.shutdown p =
      { p with running := false, shutdown_event := true,
               workers := p.workers.map (fun w => { w with alive := false }) } := by
    unfold WorkerPool.shutdown
    rw [if_pos hr]
  refine ⟨by rw [hsd], by rw [hsd], ?_, ?_⟩
  · intro i w hw
    rw [hsd] at hw
    simp only [List.getElem?_map] at hw
    rcases hpw : p.workers[i]? with _ | v
    · rw [hpw] at hw; cases hw
    · rw [hpw] at hw
      simp only [Option.map_some'] at hw
      injection hw with hww
      subst hww
      rfl
  · rw [hsd]
    conv_lhs => unfold WorkerPool.shutdown
    rw [if_neg (by simp)]

theorem shutdown_sets_flags_and_is_idempotent_witness :
    (WorkerPool.shutdown samplePool).running = false ∧
    (WorkerPool.shutdown samplePool).shutdown_event = true ∧
    WorkerPool.shutdown (WorkerPool.shutdown samplePool) =
      WorkerPool.shutdown samplePool := by
  obtain ⟨h1, h2, h3, h4⟩ := shutdown_sets_flags_and_is_idempotent samplePool rfl
  exact ⟨h1, h2, h4⟩

/-- A concrete services record for evaluating the model on closed inputs. -/
def sampleServices : Services :=
  { b64decode := fun _ => .ok [], b64encode := fun _ => "",
    transcribe := fun _ _ => .ok .null,
    synthesize := fun _ _ _ _ => .ok [],
    hfSynthesize := fun _ _ _ => .ok [],
    generate_response := fun _ => .ok .null,
    create_instant_clone := fun _ _ _ => .ok .null,
    create_professional_clone := fun _ _ _ => .ok .null,
    create_synthetic_clone := fun _ _ _ => .ok .null,
    get_clone_status := fun _ => .ok none }

/-- A clone task whose `action` is unknown, making `_process_task` raise. -/
def cloneBogusTask : TaskData :=
  { task_id := .str "t1", worker_type := .clone,
    data := [("action", .str "bogus")], priority := .num 0, submitted_at := 0 }

/-- C4: when the handler invocation inside the task loop raises, the
worker pushes exactly one Result with status `"error"`, the exception
message, its own `worker_id` and the measured processing time, and the
loop continues to the next task (`.continued`, not `.exited`). -/
theorem worker_pushes_error_result_and_continues (svc : Services) (wid : ℕ)
    (wt : WorkerType) (task : TaskData) (rest : List TaskData)
    (rq : List ResultMsg) (t0 t1 : ℚ) (e : String)
    (hfail : Worker.process_task svc wt task.data = .error e) :
    Worker.runStep svc wid wt false (task :: rest) rq t0 t1 =
      .continued rest (rq ++
        [{ task_id := task.task_id, status := "error", result := none,
           error := some e, worker_id := wid, processing_time := t1 - t0 }]) := by
  simp only [Worker.runStep, Bool.false_eq_true, if_false, hfail]

theorem worker_pushes_error_result_and_continues_witness :
    Worker.runStep sampleServices 0 .clone false [cloneBogusTask] [] 0 0 =
      .continued []
        [{ task_id := .str "t1", status := "error", result := none,
           error := some "Unknown voice cloning action: bogus", worker_id := 0,
           processing_time := 0 - 0 }] :=
  worker_pushes_error_result_and_continues sampleServices 0 .clone cloneBogusTask
    [] [] 0 0 "Unknown voice cloning action: bogus" rfl

/-- C5 counterexample: when the handler factory raises, `Worker._run`
catches the exception, prints the diagnostic to stderr and returns
(lines 117–120): a plain return from the `Process` target ends the child
with exit code **0**, not the non-zero code the claim requires. -/
theorem init_failure_exit_code_zero_counterexample :
    Worker.runInit 3 (.error "model load failed") =
      .earlyReturn "[Worker 3] Failed to initialize service: model load failed" ∧
    (Worker.runInit 3 (.error "model load failed")).exitCode = some 0 :=
  ⟨rfl, rfl⟩

/-- C5 (amended): a worker whose handler-factory initialization raises
reports the failure on its diagnostic stream (stderr) and returns before
the task loop, so the child dequeues and processes no task — but it exits
with code 0 (a normal return from the process target), not a non-zero
code. -/
theorem init_failure_reports_and_never_dequeues (wid : ℕ) (e : String) :
    Worker.runInit wid (.error e) =
      .earlyReturn ("[Worker " ++ toString wid ++ "] Failed to initialize service: " ++ e) ∧
    (Worker.runInit wid (.error e)).exitCode = some 0 ∧
    (Worker.runInit wid (.error e)).tasksDequeued = some 0 :=
  ⟨rfl, rfl, rfl⟩

/-- The payload `_process_task` returns for an STT task without audio. -/
def noAudioResult : JVal := .obj [("error", .str "No audio provided")]

/-- C9: an STT task whose payload lacks the `audio` field (or maps it
to the empty string) makes `_process_task` return `{"error": "No audio
provided"}` normally, so the worker pushes a `success` Result with that
payload (no error Result), and retrieving it increments `tasks_completed`
and leaves `tasks_failed` unchanged. -/
theorem stt_missing_audio_counts_completed (svc : Services) (wid : ℕ)
    (task : TaskData) (rest : List TaskData) (rq : List ResultMsg) (t0 t1 : ℚ)
    (haudio : dictLookup task.data "audio" = none ∨
              dictLookup task.data "audio" = some (.str "")) :
    Worker.process_task svc .stt task.data = .ok noAudioResult ∧
    Worker.runStep svc wid .stt false (task :: rest) rq t0 t1 =
      .continued rest (rq ++
        [{ task_id := task.task_id, status := "success",
           result := some noAudioResult, error := none, worker_id := wid,
           processing_time := t1 - t0 }]) ∧
    (∀ (p : PoolState) (rest2 : List ResultMsg),
      p.result_queue =
        { task_id := task.task_id, status := "success",
          result := some noAudioResult, error := none, worker_id := wid,
          processing_time := t1 - t0 } :: rest2 →
      (WorkerPool.get_result p).2.tasks_completed = p.tasks_completed + 1 ∧
      (WorkerPool.get_result p).2.tasks_failed = p.tasks_failed) := by
  have hfal : (dictGet task.data "audio" (.str "")).falsy = true := by
    rcases haudio with h | h
    · unfold dictGet
      unfold dictLookup at h
      rw [h]
      rfl
    · unfold dictGet
      unfold dictLookup at h
      rw [h]
      rfl
  have hpt : Worker.process_task svc .stt task.data = .ok noAudioResult := by
    simp only [Worker.process_task]
    rw [if_pos hfal]
    rfl
  refine ⟨hpt, ?_, ?_⟩
  · simp only [Worker.runStep, Bool.false_eq_true, if_false, hpt]
  · intro p rest2 hq
    simp only [WorkerPool.get_result, hq]
    exact ⟨rfl, rfl⟩

/-- An STT task whose payload has no `audio` key. -/
def emptyAudioTask : TaskData :=
  { task_id := .str "t2", worker_type := .stt,
    data := [("language", .str "en")], priority := .num 0, submitted_at := 0 }

theorem stt_missing_audio_counts_completed_witness :
    Worker.process_task sampleServices .stt emptyAudioTask.data = .ok noAudioResult ∧
    (WorkerPool.get_result { samplePool with result_queue :=
        [{ task_id := .str "t2", status := "success", result := some noAudioResult,
           error := none, worker_id := 0,
           processing_time := 0 - 0 }] }).2.tasks_completed =
      samplePool.tasks_completed + 1 := by
  have h := stt_missing_audio_counts_completed sampleServices 0 emptyAudioTask
    [] [] 0 0 (Or.inl rfl)
  exact ⟨h.1, (h.2.2 _ [] rfl).1⟩

/-- C6: on every `health_check`, a slot whose worker process is not
alive gets a freshly started worker carrying the same `worker_id`, the
same kind and the same inbound queue, result queue and shutdown event as
the dead one; slots whose workers are alive are untouched, and the queues
and all three counters are unchanged. -/
theorem health_check_replaces_dead_slot (p : PoolState) (hp : PoolReachable p)
    (i : ℕ) (w : WorkerSlot) (hw : p.workers[i]? = some w)
    (hdead : w.alive = false) :
    (WorkerPool.health_check p).workers[i]? =
      some { worker_id := w.worker_id, worker_type := w.worker_type,
             task_queue_ref := w.task_queue_ref,
             result_queue_ref := w.result_queue_ref,
             shutdown_ref := w.shutdown_ref, alive := true } ∧
    (∀ (j : ℕ) (v : WorkerSlot), p.workers[j]? = some v → v.alive = true →
      (WorkerPool.health_check p).workers[j]? = some v) ∧
    (WorkerPool.health_check p).task_queue = p.task_queue ∧
    (WorkerPool.health_check p).result_queue = p.result_queue ∧
    (WorkerPool.health_check p).tasks_submitted = p.tasks_submitted ∧
    (WorkerPool.health_check p).tasks_completed = p.tasks_completed ∧
    (WorkerPool.health_check p).tasks_failed = p.tasks_failed := by
  obtain ⟨hlen, hslot⟩ := wfSlots_of_reachable hp
  obtain ⟨hid, hkind, h3, h4, h5⟩ := hslot i w hw
  refine ⟨?_, ?_, rfl, rfl, rfl, rfl, rfl⟩
  · simp only [WorkerPool.health_check, List.getElem?_mapIdx, hw, Option.map_some']
    rw [if_neg (by simp [hdead])]
    rw [← hid, ← hkind, ← h3, ← h4, ← h5]
  · intro j v hv halive
    simp only [WorkerPool.health_check, List.getElem?_mapIdx, hv, Option.map_some']
    rw [if_pos halive]

/-- The dead slot-0 worker handle of `deadPool`. -/
def deadSlot : WorkerSlot :=
  { worker_id := 0, worker_type := .stt, task_queue_ref := 0,
    result_queue_ref := 1, shutdown_ref := 2, alive := false }

theorem samplePool_workers_length_pos : 0 < samplePool.workers.length := by decide

/-- State of `samplePool` after the process of worker 0 died. -/
def deadPool : PoolState :=
  { samplePool with
    workers := killSlot samplePool.workers 0 samplePool_workers_length_pos }

theorem deadPool_reachable : PoolReachable deadPool :=
  ⟨2, .stt, 0, 1, 2, Relation.ReflTransGen.single
    (PoolStep.processDeath samplePool 0 samplePool_workers_length_pos)⟩

theorem health_check_replaces_dead_slot_witness :
    (WorkerPool.health_check deadPool).workers[0]? =
      some { worker_id := deadSlot.worker_id, worker_type := deadSlot.worker_type,
             task_queue_ref := deadSlot.task_queue_ref,
             result_queue_ref := deadSlot.result_queue_ref,
             shutdown_ref := deadSlot.shutdown_ref, alive := true } ∧
    (WorkerPool.health_check deadPool).tasks_submitted = deadPool.tasks_submitted := by
  have h := health_check_replaces_dead_slot deadPool deadPool_reachable 0 deadSlot
    (by decide) rfl
  exact ⟨h.1, h.2.2.2.2.1⟩

/-- C8: `get_result` on an empty outbound queue returns the `None`
sentinel and leaves the whole pool — in particular both counters —
unchanged, and the supervisor turns that sentinel into a `no_result`
response, not an error; when a Result is popped, exactly one of
`tasks_completed` / `tasks_failed` is incremented according to the
Result's status being `"success"` or `"error"`. -/
theorem get_result_sentinel_and_counting (p : PoolState) :
    (p.result_queue = [] → WorkerPool.get_result p = (none, p)) ∧
    (∀ (r : ResultMsg) (rest : List ResultMsg), p.result_queue = r :: rest →
      r.status = "success" →
      WorkerPool.get_result p =
        (some r, { p with result_queue := rest,
                          tasks_completed := p.tasks_completed + 1 })) ∧
    (∀ (r : ResultMsg) (rest : List ResultMsg), p.result_queue = r :: rest →
      r.status = "error" →
      WorkerPool.get_result p =
        (some r, { p with result_queue := rest,
                          tasks_failed := p.tasks_failed + 1 })) ∧
    (∀ t0 t1 : ℚ, p.result_queue = [] →
      Supervisor.handleLine p (.parsed (.obj [("type", .str "get_result")])) t0 t1 =
        .done [.obj [("type", .str "no_result"),
                     ("message", .str "No result available")]] p false) := by
  refine ⟨?_, ?_, ?_, ?_⟩
  · intro h
    simp only [WorkerPool.get_result, h]
  · intro r rest h hs
    simp only [WorkerPool.get_result, h]
    rw [if_pos hs]
  · intro r rest h hs
    simp only [WorkerPool.get_result, h]
    rw [if_neg (by simp [hs])]
  · intro t0 t1 h
    simp only [Supervisor.handleLine, dictLookup, List.lookup, WorkerPool.get_result, h]
    rfl

/-- A worker-produced error Result, for concrete evaluation. -/
def sampleErrResult : ResultMsg :=
  { task_id := .str "t3", status := "error", result := none,
    error := some "boom", worker_id := 1, processing_time := 0 }

/-- State `errPool`: `samplePool` with one error Result pending on the outbound queue. -/
def errPool : PoolState := { samplePool with result_queue := [sampleErrResult] }

theorem get_result_sentinel_and_counting_witness :
    WorkerPool.get_result samplePool = (none, samplePool) ∧
    Supervisor.handleLine samplePool (.parsed (.obj [("type", .str "get_result")])) 0 0 =
      .done [.obj [("type", .str "no_result"),
                   ("message", .str "No result available")]] samplePool false ∧
    WorkerPool.get_result errPool =
      (some sampleErrResult,
        { errPool with result_queue := [],
                       tasks_failed := errPool.tasks_failed + 1 }) := by
  refine ⟨(get_result_sentinel_and_counting samplePool).1 rfl,
    (get_result_sentinel_and_counting samplePool).2.2.2 0 0 rfl,
    (get_result_sentinel_and_counting errPool).2.2.1 sampleErrResult [] rfl rfl⟩

/-- C10: with `num_workers > 0` the `worker_utilization` metric equals
`(num_workers - alive_workers) / num_workers` — the fraction of *dead*
workers: it is 0 whenever every worker process is alive, no matter how
many are busy; and when `num_workers = 0` the metric is 0. -/
theorem worker_utilization_is_dead_fraction (p : PoolState)
    (hp : PoolReachable p) (hn : 0 < p.num_workers) :
    (WorkerPool.get_metrics p).worker_utilization =
      ((p.num_workers : ℚ) - ((WorkerPool.get_metrics p).alive_workers : ℚ)) /
        (p.num_workers : ℚ) ∧
    (WorkerPool.get_metrics p).worker_utilization =
      (((p.workers.filter (fun w => !w.alive)).length : ℚ)) / (p.num_workers : ℚ) ∧
    ((∀ w ∈ p.workers, w.alive = true) →
      (WorkerPool.get_metrics p).worker_utilization = 0) ∧
    (∀ q : PoolState, q.num_workers = 0 →
      (WorkerPool.get_metrics q).worker_utilization = 0) := by
  have hlen := (wfSlots_of_reachable hp).1
  have hsplit : p.workers.length =
      (p.workers.filter (fun w => w.alive)).length +
        (p.workers.filter (fun w => !w.alive)).length :=
    List.length_eq_length_filter_add (fun w => w.alive)
  have hq : (p.num_workers : ℚ) - ((p.workers.filter (fun w => w.alive)).length : ℚ) =
      ((p.workers.filter (fun w => !w.alive)).length : ℚ) := by
    rw [← hlen, hsplit]
    push_cast
    ring
  refine ⟨?_, ?_, ?_, ?_⟩
  · simp only [WorkerPool.get_metrics]
    rw [if_pos hn]
  · simp only [WorkerPool.get_metrics]
    rw [if_pos hn, hq]
  · intro hall
    have hfa : p.workers.filter (fun w => w.alive) = p.workers :=
      List.filter_eq_self.mpr (fun a ha => by rw [hall a ha])
    simp only [WorkerPool.get_metrics]
    rw [if_pos hn, hfa, hlen]
    simp
  · intro q hq0
    simp only [WorkerPool.get_metrics]
    rw [if_neg (by omega)]

theorem worker_utilization_is_dead_fraction_witness :
    (WorkerPool.get_metrics samplePool).worker_utilization = 0 :=
  (worker_utilization_is_dead_fraction samplePool
    ⟨2, .stt, 0, 1, 2, Relation.ReflTransGen.refl⟩ (by decide)).2.2.1 (by decide)

/-- Helper: `submit_task` below capacity puts immediately. -/
theorem WorkerPool.submit_task_ok_of_lt (p : PoolState) (task_id : JVal)
    (data : List (String × JVal)) (priority : JVal) (t0 t1 : ℚ)
    (h : p.task_queue.length < WorkerPool.taskQueueMaxsize) :
    WorkerPool.submit_task p task_id data priority t0 t1 =
      .ok { p with
            task_queue := p.task_queue ++
              [{ task_id := task_id, worker_type := p.worker_type, data := data,
                 priority := priority, submitted_at := t0 }],
            tasks_submitted := p.tasks_submitted + 1 } ((t1 - t0) * 1000) := by
  unfold WorkerPool.submit_task
  rw [if_pos h]

/-- Helper: `submit_task` at capacity blocks; the put does not return. -/
theorem WorkerPool.submit_task_blocked_of_full (p : PoolState) (task_id : JVal)
    (data : List (String × JVal)) (priority : JVal) (t0 t1 : ℚ)
    (h : ¬ p.task_queue.length < WorkerPool.taskQueueMaxsize) :
    WorkerPool.submit_task p task_id data priority t0 t1 =
      WorkerPool.SubmitOutcome.blocked := by
  unfold WorkerPool.submit_task
  rw [if_neg h]

/-- The five `type` values recognized by the if/elif chain of `main`. -/
def Supervisor.recognizedTypes : List String :=
  ["submit_task", "get_result", "get_metrics", "health_check", "shutdown"]

/-- C2 counterexample: the well-formed JSON request
`{"type": "bogus"}` falls through the supervisor's if/elif chain
(lines 481–533), which has no else branch: **no** response object is
emitted for it — not even an `error` one — refuting exactly-one-response
per request object. -/
theorem unrecognized_request_no_response_counterexample :
    Supervisor.handleLine samplePool (.parsed (.obj [("type", .str "bogus")])) 0 0 =
      .done [] samplePool false := rfl

/-- C2 (amended): per input line the supervisor emits exactly one
`error` response for a JSON decode failure and for a non-object request
(whose `request.get` raises into the generic exception handler); exactly
one response for each recognized request type — for `submit_task` when
the inbound queue is below capacity, while at capacity the blocking put
prevents any response — and **no** response at all for a request object
whose `type` field is missing or unrecognized. -/
theorem supervisor_response_counts (p : PoolState) (t0 t1 : ℚ) :
    (∀ e, Supervisor.handleLine p (.jsonError e) t0 t1 =
      .done [Supervisor.errorResp ("Invalid JSON: " ++ e)] p false) ∧
    (∀ v : JVal, (∀ fs, v ≠ .obj fs) →
      Supervisor.handleLine p (.parsed v) t0 t1 =
        .done [Supervisor.errorResp (Supervisor.attrGetMsg v)] p false) ∧
    (∀ fields, dictLookup fields "type" = some (.str "submit_task") →
      p.task_queue.length < WorkerPool.taskQueueMaxsize →
      ∃ resp p2, Supervisor.handleLine p (.parsed (.obj fields)) t0 t1 =
        .done [resp] p2 false) ∧
    (∀ fields, dictLookup fields "type" = some (.str "submit_task") →
      ¬ p.task_queue.length < WorkerPool.taskQueueMaxsize →
      Supervisor.handleLine p (.parsed (.obj fields)) t0 t1 = .blocked) ∧
    (∀ fields, dictLookup fields "type" = some (.str "get_result") →
      ∃ resp p2, Supervisor.handleLine p (.parsed (.obj fields)) t0 t1 =
        .done [resp] p2 false) ∧
    (∀ fields, dictLookup fields "type" = some (.str "get_metrics") →
      Supervisor.handleLine p (.parsed (.obj fields)) t0 t1 =
        .done [.obj (("type", .str "metrics") ::
          (WorkerPool.get_metrics p).toFields)] p false) ∧
    (∀ fields, dictLookup fields "type" = some (.str "health_check") →
      Supervisor.handleLine p (.parsed (.obj fields)) t0 t1 =
        .done [.obj [("type", .str "health_check_complete")]]
          (WorkerPool.health_check p) false) ∧
    (∀ fields, dictLookup fields "type" = some (.str "shutdown") →
      Supervisor.handleLine p (.parsed (.obj fields)) t0 t1 =
        .done [.obj [("type", .str "shutdown_complete")]]
          (WorkerPool.shutdown p) true) ∧
    (∀ fields, (∀ s ∈ Supervisor.recognizedTypes,
        dictLookup fields "type" ≠ some (.str s)) →
      Supervisor.handleLine p (.parsed (.obj fields)) t0 t1 = .done [] p false) := by
  refine ⟨fun e => rfl, ?_, ?_, ?_, ?_, ?_, ?_, ?_, ?_⟩
  · intro v hv
    cases v with
    | obj fs => exact absurd rfl (hv fs)
    | null => rfl
    | bool b => rfl
    | num q => rfl
    | str s => rfl
    | arr elems => rfl
  · intro fields hty hlt
    simp only [Supervisor.handleLine, hty]
    rw [WorkerPool.submit_task_ok_of_lt _ _ _ _ _ _ hlt]
    exact ⟨_, _, rfl⟩
  · intro fields hty hfull
    simp only [Supervisor.handleLine, hty]
    rw [WorkerPool.submit_task_blocked_of_full _ _ _ _ _ _ hfull]
  · intro fields hty
    simp only [Supervisor.handleLine, hty]
    rcases hres : WorkerPool.get_result p with ⟨_ | r, p2⟩
    · exact ⟨_, _, rfl⟩
    · exact ⟨_, _, rfl⟩
  · intro fields hty
    simp only [Supervisor.handleLine, hty]
  · intro fields hty
    simp only [Supervisor.handleLine, hty]
  · intro fields hty
    simp only [Supervisor.handleLine, hty]
  · intro fields hne
    rcases hty : dictLookup fields "type" with _ | v
    · simp only [Supervisor.handleLine, hty]
    · have hs : ∀ s ∈ Supervisor.recognizedTypes, v ≠ JVal.str s := by
        intro s hsmem heq
        exact hne s hsmem (by rw [hty, heq])
      cases v with
      | str s =>
          simp only [Supervisor.recognizedTypes] at hs
          simp only [Supervisor.handleLine, hty]
          split
          · rename_i heq
            exact absurd heq (by simpa using hs "submit_task" (by simp))
          · rename_i heq
            exact absurd heq (by simpa using hs "get_result" (by simp))
          · rename_i heq
            exact absurd heq (by simpa using hs "get_metrics" (by simp))
          · rename_i heq
            exact absurd heq (by simpa using hs "health_check" (by simp))
          · rename_i heq
            exact absurd heq (by simpa using hs "shutdown" (by simp))
          · rfl
      | null => simp only [Supervisor.handleLine, hty]
      | bool b => simp only [Supervisor.handleLine, hty]
      | num q => simp only [Supervisor.handleLine, hty]
      | arr elems => simp only [Supervisor.handleLine, hty]
      | obj fs => simp only [Supervisor.handleLine, hty]

theorem supervisor_response_counts_witness :
    Supervisor.handleLine samplePool (.jsonError "x") 0 0 =
      .done [Supervisor.errorResp "Invalid JSON: x"] samplePool false ∧
    Supervisor.handleLine samplePool (.parsed (.arr [])) 0 0 =
      .done [Supervisor.errorResp (Supervisor.attrGetMsg (.arr []))] samplePool false ∧
    Supervisor.handleLine samplePool (.parsed (.obj [("type", .str "health_check")])) 0 0 =
      .done [.obj [("type", .str "health_check_complete")]]
        (WorkerPool.health_check samplePool) false ∧
    Supervisor.handleLine samplePool (.parsed (.obj [("type", .str "ping")])) 0 0 =
      .done [] samplePool false := by
  have h := supervisor_response_counts samplePool 0 0
  refine ⟨h.1 "x", h.2.1 (.arr []) (fun fs hfs => by cases hfs),
    h.2.2.2.2.2.2.1 [("type", .str "health_check")] rfl, ?_⟩
  refine h.2.2.2.2.2.2.2.2 [("type", .str "ping")] ?_
  intro s hs hcontra
  fin_cases hs <;> simp [dictLookup, List.lookup] at hcontra
